import Mathlib

/-!
Verification of the Predicare per-conversation clinical state machine.

The definitions below are shallow embeddings of the `CaseContext` class of
`AI Doctor/main.py` as excerpted in `SAFETY_FIXES.md`, `ADVANCED_FEATURES.md`
and `THREE_TIER_URGENCY_SYSTEM.md`, and of the chat client in
`src/pages/app/Chat.tsx`.  Python strings are modelled as `String` or
`List Char`; the Python float `diagnostic_certainty` is modelled as `ℚ`;
the float overlap-ratio comparison is modelled exactly by cross
multiplication over `Nat`; Python's `ZeroDivisionError` is modelled with
`Except`.
-/

namespace Predicare

/-- The three urgency tiers of `THREE_TIER_URGENCY_SYSTEM.md`:
`"routine"`, `"urgent"`, `"emergency"`. -/
inductive UrgencyTier where
  | routine
  | urgent
  | emergency
deriving DecidableEq

/-- The `priority` dict of `set_urgency`:
`{"routine": 0, "urgent": 1, "emergency": 2}`. -/
def priority : UrgencyTier → Nat
  | .routine => 0
  | .urgent => 1
  | .emergency => 2

/-- Organ systems as categorized by `detect_organ_system`
(`SAFETY_FIXES.md` lines 58-61). -/
inductive OrganSystem where
  | neurological
  | cardiovascular
  | respiratory
  | gastrointestinal
  | unspecified
deriving DecidableEq

/-- The per-session `CaseContext` state (`SAFETY_FIXES.md` lines 22-29,
`THREE_TIER_URGENCY_SYSTEM.md` lines 85-105, spec §3).  `asked_questions`
holds normalized questions as character lists (a Python `set` of strings,
modelled as a duplicate-free list). -/
structure CaseContext where
  initial_symptoms : String
  organ_system : Option OrganSystem
  urgency_tier : UrgencyTier
  severity_score : Nat
  severity_factors : List (String × Nat)
  asked_questions : List (List Char)
  symptom_history : List String
  diagnostic_certainty : ℚ
deriving DecidableEq

/-- A freshly created case: `urgency_tier = "routine"`, nothing detected yet
(`THREE_TIER_URGENCY_SYSTEM.md` line 88, `SAFETY_FIXES.md` lines 31-35). -/
def initCase (symptoms : String) : CaseContext where
  initial_symptoms := symptoms
  organ_system := none
  urgency_tier := .routine
  severity_score := 0
  severity_factors := []
  asked_questions := []
  symptom_history := []
  diagnostic_certainty := 0

/-- `set_urgency` (`THREE_TIER_URGENCY_SYSTEM.md` lines 90-95): assign the
candidate tier only when its priority strictly exceeds the current one. -/
def set_urgency (s : CaseContext) (tier : UrgencyTier) : CaseContext :=
  if priority tier > priority s.urgency_tier then
    { s with urgency_tier := tier }
  else
    s

/-! ### String helpers (List Char embeddings of the Python string operations) -/

/-- `str.lower()` on a character list. -/
def toLowerL (l : List Char) : List Char := l.map Char.toLower

/-- Boolean list-prefix test used by the substring scan. -/
def isPrefixL : List Char → List Char → Bool
  | [], _ => true
  | _ :: _, [] => false
  | a :: as, b :: bs => a == b && isPrefixL as bs

/-- Python's `pat in s` substring containment. -/
def containsSub (pat : List Char) : List Char → Bool
  | [] => isPrefixL pat []
  | c :: rest => isPrefixL pat (c :: rest) || containsSub pat rest

/-- The apostrophe character, ASCII 39. -/
def apostropheChar : Char := Char.ofNat 39

/-! ### Severity Scorer (`ADVANCED_FEATURES.md` lines 74-101) -/

/-- The weighted clinical markers of `_calculate_severity`: keyword,
factor name (per the logged `severity_factors` output) and point value. -/
def severityMarkers : List (List Char × String × Nat) :=
  [ ("sudden".data, ("sudden_onset", 2))
  , ("fever".data, ("fever", 1))
  , ("headache".data, ("neurological", 3))
  , ("trauma".data, ("trauma", 3))
  , ("vomit".data, ("vomiting", 1))
  , ("chest pain".data, ("chest_pain", 3))
  , ("can".data ++ [apostropheChar] ++ "t breathe".data, ("breathing", 2)) ]

/-- The factor map recorded by `_calculate_severity`: each marker present in
the lowercased text contributes once (presence, not occurrence count). -/
def severityFactors (text : String) : List (String × Nat) :=
  (severityMarkers.filter (fun m => containsSub m.1 (toLowerL text.data))).map
    (fun m => m.2)

/-- The severity score: the sum of the point values of the present factors
(`self.severity_score` accumulated by the chain of `if`s, starting from 0). -/
def severityScore (text : String) : Nat :=
  (severityFactors text).foldl (fun acc f => acc + f.2) 0

/-- `_calculate_severity` as a state transformer: recompute the score and
factor map from the text, then auto-escalate via `set_urgency`
(`ADVANCED_FEATURES.md` lines 96-101 with the three-tier names of
`THREE_TIER_URGENCY_SYSTEM.md`: score ≥ 5 → emergency, score ≥ 3 → urgent,
otherwise no escalation call). -/
def calculate_severity (text : String) (s : CaseContext) : CaseContext :=
  if severityScore text ≥ 5 then
    set_urgency
      { s with severity_score := severityScore text
               severity_factors := severityFactors text } .emergency
  else if severityScore text ≥ 3 then
    set_urgency
      { s with severity_score := severityScore text
               severity_factors := severityFactors text } .urgent
  else
    { s with severity_score := severityScore text
             severity_factors := severityFactors text }

/-! ### Question tracking and deduplication (`ADVANCED_FEATURES.md` lines 321-341) -/

/-- Characters stripped by `question.lower().strip("? ")`. -/
def isStripChar (c : Char) : Bool := c == '?' || c == ' '

/-- Python's `str.strip("? ")`: drop the stripped characters from both ends. -/
def stripEnds (l : List Char) : List Char :=
  ((l.dropWhile isStripChar).reverse.dropWhile isStripChar).reverse

/-- The question normalization
`question.lower().strip("? ").replace(".", "").replace(",", "")`. -/
def normalizeQ (q : String) : List Char :=
  (stripEnds (toLowerL q.data)).filter (fun c => !(c == '.' || c == ','))

/-- Python's `str.split()`: split into words on whitespace, discarding
empty fragments (accumulator-based scan). -/
def splitWordsAux : List Char → List Char → List (List Char)
  | [], acc => if acc = [] then [] else [acc.reverse]
  | c :: rest, acc =>
    if c.isWhitespace then
      if acc = [] then splitWordsAux rest []
      else acc.reverse :: splitWordsAux rest []
    else splitWordsAux rest (c :: acc)

/-- The word set `set(s.split())` of a normalized question, as a
duplicate-free list. -/
def tokenSet (l : List Char) : List (List Char) := (splitWordsAux l []).dedup

/-- `track_question`: normalize and add to the `asked_questions` set. -/
def track_question (s : CaseContext) (q : String) : CaseContext :=
  if normalizeQ q ∈ s.asked_questions then s
  else { s with asked_questions := normalizeQ q :: s.asked_questions }

/-- `len(asked_words & new_words)`: the size of the intersection of the two
word sets. -/
def overlapCount (asked nq : List Char) : Nat :=
  ((tokenSet asked).filter (fun w => w ∈ tokenSet nq)).length

/-- The Python `ZeroDivisionError` raised by
`len(asked_words & new_words) / len(new_words)` when `new_words` is empty. -/
def zeroDivMsg : String := "ZeroDivisionError"

/-- The `for asked in self.asked_questions` loop of `is_question_asked`:
per stored question, compute the overlap ratio of the new question's word
set and compare it with 0.7 (`ratio > 0.7` over the rationals is exactly
`7 * |new| < 10 * overlap`); dividing by an empty word set raises. -/
def questionScan (nq : List Char) : List (List Char) → Except String Bool
  | [] => .ok false
  | asked :: rest =>
    if (tokenSet nq).length = 0 then .error zeroDivMsg
    else if 7 * (tokenSet nq).length < 10 * overlapCount asked nq then .ok true
    else questionScan nq rest

/-- `is_question_asked`: exact normalized match, then the 70%-overlap scan. -/
def is_question_asked (s : CaseContext) (q : String) : Except String Bool :=
  if normalizeQ q ∈ s.asked_questions then .ok true
  else questionScan (normalizeQ q) s.asked_questions

/-! ### Organ-system validation (`SAFETY_FIXES.md` lines 57-68) -/

/-- `validate_organ_system_consistency`: assign on first use and succeed;
once set, succeed exactly on agreement and never mutate.  The Python method
mutates `self` and returns a bool; modelled as a (result, state) pair. -/
def validate_organ_system_consistency (s : CaseContext) (new_system : OrganSystem) :
    Bool × CaseContext :=
  match s.organ_system with
  | none => (true, { s with organ_system := some new_system })
  | some sys => (decide (sys = new_system), s)

/-! ### Question suppression (`ADVANCED_FEATURES.md` lines 147-156) -/

/-- `is_emergency` in the three-tier system
(`THREE_TIER_URGENCY_SYSTEM.md` lines 97-98): `urgency_tier == "emergency"`.
Under the documented alias this is also `emergency_level == "critical"`. -/
def is_emergency (s : CaseContext) : Bool :=
  match s.urgency_tier with
  | .emergency => true
  | _ => false

/-- Modelled from the spec: the legacy `is_emergency` used by the
`should_suppress_questions` excerpt, whose own definition (over the old
`emergency_level ∈ {none, urgent, critical}` field) is not among the code
excerpts in the repository.  Per the spec clause
"`urgency_tier != routine AND diagnostic_certainty > 0.7`" and the
suppression behavior table of `ADVANCED_FEATURES.md` (score 3-4 with
certainty > 0.7 suppresses), it holds whenever any escalation is active,
i.e. the tier is not routine. -/
def is_emergency_legacy (s : CaseContext) : Bool :=
  match s.urgency_tier with
  | .routine => false
  | _ => true

/-- `should_suppress_questions`: suppress when an emergency is locked with
high certainty, or unconditionally at the critical (= emergency) tier. -/
def should_suppress_questions (s : CaseContext) : Bool :=
  if is_emergency_legacy s && decide ((7 : ℚ) / 10 < s.diagnostic_certainty) then true
  else if is_emergency s then true
  else false

/-! ### Session operations

The mutators of `CaseContext` exercised per turn, packaged as an operation
type so that session-lifetime invariants can be stated over arbitrary
operation sequences. -/

/-- One mutation of the per-session state. -/
inductive CaseOp where
  | setUrg (tier : UrgencyTier)
  | calcSeverity (text : String)
  | validateOrgan (sys : OrganSystem)
  | trackQ (q : String)
  | setCertainty (c : ℚ)
  | addFollowUp (text : String)

/-- Apply one operation to the session state. -/
def applyOp (s : CaseContext) : CaseOp → CaseContext
  | .setUrg tier => set_urgency s tier
  | .calcSeverity text => calculate_severity text s
  | .validateOrgan sys => (validate_organ_system_consistency s sys).2
  | .trackQ q => track_question s q
  | .setCertainty c => { s with diagnostic_certainty := c }
  | .addFollowUp text => { s with symptom_history := s.symptom_history ++ [text] }

/-- Apply a sequence of operations to the session state. -/
def applyOps (s : CaseContext) (ops : List CaseOp) : CaseContext :=
  ops.foldl applyOp s

/-! ### Chat client (`src/pages/app/Chat.tsx`) -/

/-- The client-side state relevant to sending: the controlled input value,
the displayed urgency tier (null before any response) and the message
list. -/
structure ChatState where
  inputValue : List Char
  urgencyTier : Option UrgencyTier
  messages : List (List Char)
deriving DecidableEq

/-- JavaScript's `String.prototype.trim`. -/
def trimL (l : List Char) : List Char :=
  ((l.dropWhile Char.isWhitespace).reverse.dropWhile Char.isWhitespace).reverse

/-- `handleSend` (Chat.tsx lines 548-639): return without sending when the
trimmed input is empty or the tier is `"emergency"`; otherwise append the
user message, clear the input and submit the request.  `resp` is the
urgency tier of the backend's response to the submitted request (absent
fields leave the tier unchanged, per
`if (data.urgency_tier) setUrgencyTier(data.urgency_tier)`); the second
component is the submitted message, if any. -/
def handleSend (s : ChatState) (resp : Option UrgencyTier) :
    ChatState × Option (List Char) :=
  if trimL s.inputValue = [] ∨ s.urgencyTier = some .emergency then (s, none)
  else
    ({ inputValue := []
       urgencyTier := match resp with | some t => some t | none => s.urgencyTier
       messages := s.messages ++ [s.inputValue] },
     some s.inputValue)

/-- A user interaction with the chat client: editing the input field, or
pressing send (with the backend's would-be response tier as oracle). -/
inductive ChatAction where
  | setInput (v : List Char)
  | send (resp : Option UrgencyTier)

/-- One client step; the second component is the message submitted to the
backend, if any. -/
def chatStep (s : ChatState) : ChatAction → ChatState × Option (List Char)
  | .setInput v => ({ s with inputValue := v }, none)
  | .send resp => handleSend s resp

/-- Run a sequence of interactions, collecting every message submitted to
the backend. -/
def runChat : ChatState → List ChatAction → ChatState × List (List Char)
  | s, [] => (s, [])
  | s, a :: rest =>
    ((runChat (chatStep s a).1 rest).1,
      (match (chatStep s a).2 with | some m => [m] | none => []) ++
        (runChat (chatStep s a).1 rest).2)

/-- What the input area of Chat.tsx renders (lines 823-879): nothing
without an active session; a disabled notice instead of the input controls
when the tier is `"emergency"`. -/
inductive InputAreaView where
  | hidden
  | disabledNotice
  | controls
deriving DecidableEq

/-- The input-area conditional of Chat.tsx lines 824-833. -/
def renderInputArea (activeSession : Bool) (tier : Option UrgencyTier) :
    InputAreaView :=
  if activeSession then
    if tier = some .emergency then .disabledNotice else .controls
  else .hidden

/-! ### Concrete inputs used in the theorems below -/

/-- The empty message. -/
def emptyText : String := ""

/-- Scenario B input (spec §8). -/
def textScenarioB : String := "sudden severe headache and vomiting"

/-- Scenario A input: no recognized clinical marker. -/
def textCough : String := "i have a cough"

/-- A text repeating one marker keyword. -/
def textHeadacheTwice : String := "headache and more headache"

/-- The tracked question of the non-repetition property (spec §8). -/
def qTrauma1 : String := "Did you experience any trauma?"

/-- The rephrased question of the non-repetition property (spec §8). -/
def qTrauma2 : String := "Have you had any recent trauma?"

/-- A normal tracked question. -/
def qFever : String := "Do you have fever?"

/-- A punctuation-only question, normalizing to an empty token set. -/
def qMarks : String := "???"

/-- A session state whose tier has reached emergency. -/
def emergCase : CaseContext :=
  { initCase emptyText with urgency_tier := .emergency }

/-- A chat-client state whose displayed tier is emergency. -/
def emergChat : ChatState :=
  { inputValue := "hi".data, urgencyTier := some .emergency, messages := [] }

/-- A concrete interaction sequence used to witness the chat-client claim. -/
def emergActs : List ChatAction :=
  [ ChatAction.setInput ("help".data)
  , ChatAction.send (some .routine)
  , ChatAction.send none ]

/-! ### Helper lemmas -/

lemma priority_le_two (t : UrgencyTier) : priority t ≤ 2 := by
  cases t <;> simp [priority]

lemma set_urgency_mono (s : CaseContext) (t : UrgencyTier) :
    priority s.urgency_tier ≤ priority (set_urgency s t).urgency_tier := by
  unfold set_urgency
  split
  · exact Nat.le_of_lt (by assumption)
  · exact Nat.le_refl _

lemma set_urgency_noop (s : CaseContext) (t : UrgencyTier)
    (h : priority t ≤ priority s.urgency_tier) : set_urgency s t = s := by
  unfold set_urgency
  rw [if_neg (by omega)]

lemma set_urgency_emergency (s : CaseContext) (h : s.urgency_tier = .emergency)
    (t : UrgencyTier) : set_urgency s t = s := by
  refine set_urgency_noop s t ?_
  rw [h]
  exact priority_le_two t

lemma set_urgency_organ (s : CaseContext) (t : UrgencyTier) :
    (set_urgency s t).organ_system = s.organ_system := by
  unfold set_urgency
  split <;> rfl

lemma set_urgency_tier_emer (s : CaseContext) (t : UrgencyTier)
    (h : s.urgency_tier = .emergency) : (set_urgency s t).urgency_tier = .emergency := by
  rw [set_urgency_emergency s h t]
  exact h

lemma set_urgency_organ_some (s : CaseContext) (t : UrgencyTier) (v : OrganSystem)
    (h : s.organ_system = some v) : (set_urgency s t).organ_system = some v := by
  rw [set_urgency_organ]
  exact h

lemma applyOp_emergency (s : CaseContext) (op : CaseOp)
    (h : s.urgency_tier = .emergency) : (applyOp s op).urgency_tier = .emergency := by
  cases op with
  | setUrg t =>
    show (set_urgency s t).urgency_tier = .emergency
    rw [set_urgency_emergency s h t]
    exact h
  | calcSeverity text =>
    show (calculate_severity text s).urgency_tier = .emergency
    unfold calculate_severity
    split_ifs
    · exact set_urgency_tier_emer _ _ h
    · exact set_urgency_tier_emer _ _ h
    · exact h
  | validateOrgan sys =>
    show ((validate_organ_system_consistency s sys).2).urgency_tier = .emergency
    unfold validate_organ_system_consistency
    split <;> exact h
  | trackQ q =>
    show (track_question s q).urgency_tier = .emergency
    unfold track_question
    split <;> exact h
  | setCertainty c => exact h
  | addFollowUp text => exact h

lemma applyOps_emergency (ops : List CaseOp) :
    ∀ s : CaseContext, s.urgency_tier = .emergency →
      (applyOps s ops).urgency_tier = .emergency := by
  induction ops with
  | nil => intro s h; exact h
  | cons a rest ih => intro s h; exact ih (applyOp s a) (applyOp_emergency s a h)

lemma applyOp_organ (s : CaseContext) (op : CaseOp) (v : OrganSystem)
    (h : s.organ_system = some v) : (applyOp s op).organ_system = some v := by
  cases op with
  | setUrg t =>
    show (set_urgency s t).organ_system = some v
    exact set_urgency_organ_some _ _ _ h
  | calcSeverity text =>
    show (calculate_severity text s).organ_system = some v
    unfold calculate_severity
    split_ifs
    · exact set_urgency_organ_some _ _ _ h
    · exact set_urgency_organ_some _ _ _ h
    · exact h
  | validateOrgan sys =>
    show ((validate_organ_system_consistency s sys).2).organ_system = some v
    unfold validate_organ_system_consistency
    split
    · simp_all
    · exact h
  | trackQ q =>
    show (track_question s q).organ_system = some v
    unfold track_question
    split <;> exact h
  | setCertainty c => exact h
  | addFollowUp text => exact h

lemma applyOps_organ (ops : List CaseOp) :
    ∀ (s : CaseContext) (v : OrganSystem), s.organ_system = some v →
      (applyOps s ops).organ_system = some v := by
  induction ops with
  | nil => intro s v h; exact h
  | cons a rest ih => intro s v h; exact ih (applyOp s a) v (applyOp_organ s a v h)

lemma suppress_of_emergency (s : CaseContext) (h : s.urgency_tier = .emergency) :
    should_suppress_questions s = true := by
  unfold should_suppress_questions is_emergency is_emergency_legacy
  rw [h]
  split <;> rfl

/-! ### Claim theorems -/

/-- C1: urgency escalation is one-way.  `set_urgency(candidate)` assigns
`urgency_tier = candidate` only when `priority(candidate)` strictly exceeds
`priority(current)` and is a no-op otherwise, so along every sequence of
`set_urgency` calls (candidates in {routine, urgent, emergency}) the tier is
monotonically non-decreasing under routine < urgent < emergency. -/
theorem claim_C1 (s : CaseContext) (c : UrgencyTier) (cands : List UrgencyTier) :
    (priority c > priority s.urgency_tier →
      set_urgency s c = { s with urgency_tier := c })
    ∧ (¬ priority c > priority s.urgency_tier → set_urgency s c = s)
    ∧ priority s.urgency_tier ≤ priority ((cands.foldl set_urgency s).urgency_tier) := by
  refine ⟨fun h => ?_, fun h => ?_, ?_⟩
  · unfold set_urgency
    rw [if_pos h]
  · unfold set_urgency
    rw [if_neg h]
  · induction cands generalizing s with
    | nil => exact Nat.le_refl _
    | cons a rest ih =>
      exact Nat.le_trans (set_urgency_mono s a) (ih (set_urgency s a))

/-- C1 witness: escalating a fresh routine case to urgent assigns the tier,
and a sequence of candidates never lowers it. -/
theorem claim_C1_w :
    set_urgency (initCase emptyText) .urgent =
      { initCase emptyText with urgency_tier := UrgencyTier.urgent } :=
  (claim_C1 (initCase emptyText) .urgent []).1 (by decide)

/-- C2: the urgency tier derived from the recomputed severity score follows
the fixed thresholds: score < 3 → routine, score in 3-4 → urgent,
score ≥ 5 → emergency (for every input text, on a fresh session). -/
theorem claim_C2 (text : String) :
    (calculate_severity text (initCase text)).urgency_tier =
      (if severityScore text ≥ 5 then .emergency
       else if severityScore text ≥ 3 then .urgent
       else .routine) := by
  unfold calculate_severity
  split_ifs <;> rfl

/-- C5: organ-system locking.  `validate_organ_system_consistency` assigns
and succeeds when `organ_system` is unset; once set, it succeeds exactly when
the candidate equals the locked value and never mutates the state (a failure
is a signal, not a reset); consequently a non-null `organ_system` survives
every sequence of session operations unchanged. -/
theorem claim_C5 (s : CaseContext) (c v : OrganSystem) (ops : List CaseOp) :
    (s.organ_system = none →
      validate_organ_system_consistency s c =
        (true, { s with organ_system := some c }))
    ∧ (s.organ_system = some v →
        ((validate_organ_system_consistency s c).1 = true ↔ c = v)
        ∧ (validate_organ_system_consistency s c).2 = s)
    ∧ (s.organ_system = some v → (applyOps s ops).organ_system = some v) := by
  refine ⟨fun h => ?_, fun h => ?_, fun h => applyOps_organ ops s v h⟩
  · unfold validate_organ_system_consistency
    rw [h]
  · unfold validate_organ_system_consistency
    rw [h]
    constructor
    · simp [eq_comm]
    · rfl

/-- C5 witness: a fresh case locks to the first candidate; a locked
cardiovascular case accepts only cardiovascular, rejects gastrointestinal
without resetting, and keeps its lock across a sequence of operations. -/
theorem claim_C5_w :
    validate_organ_system_consistency (initCase emptyText) .cardiovascular =
      (true, { initCase emptyText with organ_system := some OrganSystem.cardiovascular })
    ∧ (validate_organ_system_consistency
        { initCase emptyText with organ_system := some OrganSystem.cardiovascular }
        .gastrointestinal).2 =
      { initCase emptyText with organ_system := some OrganSystem.cardiovascular }
    ∧ (applyOps
        { initCase emptyText with organ_system := some OrganSystem.cardiovascular }
        [CaseOp.validateOrgan .gastrointestinal, CaseOp.calcSeverity textScenarioB]).organ_system =
      some OrganSystem.cardiovascular :=
  ⟨(claim_C5 (initCase emptyText) .cardiovascular .cardiovascular []).1 rfl,
   ((claim_C5 { initCase emptyText with organ_system := some OrganSystem.cardiovascular }
      .gastrointestinal .cardiovascular []).2.1 rfl).2,
   (claim_C5 { initCase emptyText with organ_system := some OrganSystem.cardiovascular }
      .gastrointestinal .cardiovascular
      [CaseOp.validateOrgan .gastrointestinal, CaseOp.calcSeverity textScenarioB]).2.2 rfl⟩

/-- C6: Scenario B.  For "sudden severe headache and vomiting" the Severity
Scorer yields score 6 (≥ 5) with factors sudden_onset +2, neurological +3,
vomiting +1, and the resulting urgency tier is emergency. -/
theorem claim_C6 :
    severityScore textScenarioB = 6
    ∧ 5 ≤ severityScore textScenarioB
    ∧ severityFactors textScenarioB =
        [("sudden_onset", 2), ("neurological", 3), ("vomiting", 1)]
    ∧ (calculate_severity textScenarioB (initCase textScenarioB)).urgency_tier =
        .emergency :=
  ⟨rfl, by decide, rfl, rfl⟩

/-- C7: the Severity Scorer is deterministic and idempotent: recomputing
`_calculate_severity` on the same accumulated text leaves the whole session
state fixed (no hidden counters), and a marker present several times in the
text is counted once (presence, not occurrence count, drives the score). -/
theorem claim_C7 :
    (∀ (text : String) (s : CaseContext),
        calculate_severity text (calculate_severity text s) =
          calculate_severity text s)
    ∧ severityScore textHeadacheTwice = 3
    ∧ severityFactors textHeadacheTwice = [("neurological", 3)] := by
  refine ⟨fun text s => ?_, rfl, rfl⟩
  rcases s with ⟨i, o, u, sc0, sf0, aq, sh, dc⟩
  cases u <;> (simp only [calculate_severity]; split_ifs <;> rfl)

/-- C8: empty input scores 0 with no factors; any text with no recognized
marker scores 0; in both cases `_calculate_severity` is a total state update
(the turn is processed, never rejected): on a fresh empty-text session it is
the identity. -/
theorem claim_C8 :
    (severityScore emptyText = 0 ∧ severityFactors emptyText = [])
    ∧ (∀ text : String, severityFactors text = [] → severityScore text = 0)
    ∧ calculate_severity emptyText (initCase emptyText) = initCase emptyText := by
  refine ⟨⟨rfl, rfl⟩, fun text h => ?_, rfl⟩
  unfold severityScore
  rw [h]
  rfl

/-- C8 witness: "i have a cough" has no recognized marker and scores 0. -/
theorem claim_C8_w : severityScore textCough = 0 :=
  claim_C8.2.1 textCough (by rfl)

/-- C3: `should_suppress_questions()` is true exactly at the emergency tier
or at a non-routine tier with `diagnostic_certainty > 0.7`; and once the
tier is emergency it stays true across every later sequence of session
operations, regardless of how the certainty changes. -/
theorem claim_C3 (s : CaseContext) (ops : List CaseOp) :
    (should_suppress_questions s = true ↔
      (s.urgency_tier = .emergency ∨
        (s.urgency_tier ≠ .routine ∧ (7 : ℚ) / 10 < s.diagnostic_certainty)))
    ∧ (s.urgency_tier = .emergency →
        should_suppress_questions (applyOps s ops) = true) := by
  constructor
  · rcases s with ⟨i, o, u, sc0, sf0, aq, sh, dc⟩
    cases u <;> simp [should_suppress_questions, is_emergency, is_emergency_legacy]
  · intro h
    exact suppress_of_emergency _ (applyOps_emergency ops s h)

/-- C3 witness: with the tier at emergency, suppression stays on after an
operation sequence that drops the certainty to 0 and offers a routine
candidate. -/
theorem claim_C3_w :
    should_suppress_questions
      (applyOps emergCase [CaseOp.setCertainty 0, CaseOp.setUrg .routine]) = true :=
  (claim_C3 emergCase [CaseOp.setCertainty 0, CaseOp.setUrg .routine]).2 rfl

lemma questionScan_ok_true (nq : List Char) (hne : (tokenSet nq).length ≠ 0) :
    ∀ l : List (List Char),
      (questionScan nq l = .ok true ↔
        ∃ a ∈ l, 7 * (tokenSet nq).length < 10 * overlapCount a nq) := by
  intro l
  induction l with
  | nil => simp [questionScan]
  | cons a rest ih =>
    simp only [questionScan]
    rw [if_neg hne]
    by_cases hov : 7 * (tokenSet nq).length < 10 * overlapCount a nq
    · rw [if_pos hov]
      simp [hov]
    · rw [if_neg hov]
      rw [ih]
      simp [hov]

/-- C4 counterexample: after tracking "Did you experience any trauma?",
`is_question_asked("Have you had any recent trauma?")` returns false, not
true as claimed: the token overlap is 3 of 6 words (you, any, trauma), i.e.
50%, which does not exceed 70%. -/
theorem claim_C4_cex :
    (¬ is_question_asked (track_question (initCase emptyText) qTrauma1) qTrauma2 =
        Except.ok true)
    ∧ is_question_asked (track_question (initCase emptyText) qTrauma1) qTrauma2 =
        .ok false
    ∧ overlapCount (normalizeQ qTrauma1) (normalizeQ qTrauma2) = 3
    ∧ (tokenSet (normalizeQ qTrauma2)).length = 6 := by
  refine ⟨fun h => ?_, rfl, rfl, rfl⟩
  exact Bool.noConfusion (Except.ok.inj h)

/-- C4 (amended): `is_question_asked(q2)` returns true exactly on an exact
normalized match or when the token overlap with some stored question exceeds
70% of q2's token set; for the pair in question the overlap is only 3 of 6
tokens (50%), so `is_question_asked("Have you had any recent trauma?")`
returns false after `track_question("Did you experience any trauma?")`. -/
theorem claim_C4 (s : CaseContext) (q : String)
    (hne : (tokenSet (normalizeQ q)).length ≠ 0) :
    (is_question_asked s q = .ok true ↔
      (normalizeQ q ∈ s.asked_questions ∨
        ∃ a ∈ s.asked_questions,
          7 * (tokenSet (normalizeQ q)).length < 10 * overlapCount a (normalizeQ q)))
    ∧ is_question_asked (track_question (initCase emptyText) qTrauma1) qTrauma2 =
        .ok false := by
  refine ⟨?_, rfl⟩
  unfold is_question_asked
  by_cases hmem : normalizeQ q ∈ s.asked_questions
  · rw [if_pos hmem]
    simp [hmem]
  · rw [if_neg hmem]
    rw [questionScan_ok_true (normalizeQ q) hne s.asked_questions]
    simp [hmem]

/-- C4 witness: an exact re-ask of the tracked trauma question is detected. -/
theorem claim_C4_w :
    is_question_asked (track_question (initCase emptyText) qTrauma1) qTrauma1 =
      .ok true :=
  ((claim_C4 (track_question (initCase emptyText) qTrauma1) qTrauma1
      (by decide)).1).mpr (Or.inl (by decide))

lemma handleSend_emergency (s : ChatState) (resp : Option UrgencyTier)
    (h : s.urgencyTier = some .emergency) : handleSend s resp = (s, none) := by
  unfold handleSend
  rw [if_pos (Or.inr h)]

lemma chatStep_emergency (s : ChatState) (a : ChatAction)
    (h : s.urgencyTier = some .emergency) :
    (chatStep s a).2 = none ∧ (chatStep s a).1.urgencyTier = some .emergency := by
  cases a with
  | setInput v => exact ⟨rfl, h⟩
  | send resp =>
    show (handleSend s resp).2 = none
      ∧ (handleSend s resp).1.urgencyTier = some .emergency
    rw [handleSend_emergency s resp h]
    exact ⟨rfl, h⟩

lemma runChat_emergency (acts : List ChatAction) :
    ∀ s : ChatState, s.urgencyTier = some .emergency →
      (runChat s acts).2 = [] ∧ (runChat s acts).1.urgencyTier = some .emergency := by
  induction acts with
  | nil => intro s h; exact ⟨rfl, h⟩
  | cons a rest ih =>
    intro s h
    have hstep := chatStep_emergency s a h
    have htail := ih (chatStep s a).1 hstep.2
    constructor
    · show (match (chatStep s a).2 with | some m => [m] | none => []) ++
          (runChat (chatStep s a).1 rest).2 = []
      rw [hstep.1, htail.1]
      rfl
    · exact htail.2

/-- C9: in the chat client, once the displayed tier is emergency,
`handleSend` returns without submitting for any backend oracle, no user
message is ever submitted across any further interaction sequence in the
session (and the tier stays emergency), and the input area renders the
disabled notice instead of the input controls. -/
theorem claim_C9 (s : ChatState) (resp : Option UrgencyTier) (acts : List ChatAction)
    (h : s.urgencyTier = some .emergency) :
    handleSend s resp = (s, none)
    ∧ (runChat s acts).2 = []
    ∧ (runChat s acts).1.urgencyTier = some .emergency
    ∧ renderInputArea true s.urgencyTier = .disabledNotice := by
  refine ⟨handleSend_emergency s resp h, (runChat_emergency acts s h).1,
    (runChat_emergency acts s h).2, ?_⟩
  rw [h]
  rfl

/-- C9 witness: a concrete emergency-tier client state submits nothing
across typing and two send attempts. -/
theorem claim_C9_w :
    handleSend emergChat none = (emergChat, none)
    ∧ (runChat emergChat emergActs).2 = [] :=
  ⟨(claim_C9 emergChat none emergActs rfl).1,
   (claim_C9 emergChat none emergActs rfl).2.1⟩

/-- C10: calling `is_question_asked` on a question normalizing to an empty
token set, with at least one previously tracked question (and no exact
normalized match), raises `ZeroDivisionError` instead of returning false,
because the overlap ratio divides by the size of the new question's token
set. -/
theorem claim_C10 (s : CaseContext) (q : String)
    (h1 : s.asked_questions ≠ [])
    (h2 : tokenSet (normalizeQ q) = [])
    (h3 : normalizeQ q ∉ s.asked_questions) :
    is_question_asked s q = .error zeroDivMsg := by
  unfold is_question_asked
  rw [if_neg h3]
  rcases hq : s.asked_questions with _ | ⟨a, rest⟩
  · exact absurd hq h1
  · simp only [questionScan]
    rw [h2]
    rfl

/-- C10 witness: after tracking "Do you have fever?", asking "???" (which
normalizes to no tokens) raises the division error. -/
theorem claim_C10_w :
    is_question_asked (track_question (initCase emptyText) qFever) qMarks =
      .error zeroDivMsg :=
  claim_C10 (track_question (initCase emptyText) qFever) qMarks
    (by decide) (by rfl) (by decide)

end Predicare
